import Mathlib

/-!
Verification of the FDA openFDA connector core
(`fda_connector/connector.py`).

The development shallowly embeds the connector's data model and
operations: JSON values as delivered by the upstream API, the
configuration read in `FDAConnector.__init__`, the query construction of
`_build_search_query`, the per-endpoint schema tables of `schema`, the
per-endpoint normalization of `_extract_record_data`, the retrying HTTP
wrapper `_make_request`, and the incremental pagination loop `update`.

Modelling conventions, fixed once here:
* JSON numbers are integers (no claim depends on fractional values).
* A Python expression that raises inside the per-item `try` block is an
  `Option.none`; iterating a non-array value and calling `.get` on a
  non-dict value are errors, matching `TypeError`/`AttributeError`.
* Wall-clock time (`datetime.utcnow().isoformat()`) is threaded in as an
  opaque string parameter `fetched_at`.
* The unbounded `while True:` generator is given explicit fuel: one unit
  per loop iteration.  Every property below either holds for all fuel or
  is stated for fuel large enough that the loop provably terminates on
  its own before the fuel runs out.
* `time.sleep` durations are recorded where a claim observes them (the
  429 retry path) and elided where none does (the 0.5s inter-page
  courtesy delay).
-/

/-- JSON-like values as delivered by the upstream API. -/
inductive Json where
  | null
  | bool (b : Bool)
  | int (n : Int)
  | str (s : String)
  | arr (items : List Json)
  | obj (fields : List (String × Json))
deriving Repr

/-- Python truthiness of a JSON value: `None`, `False`, `0`, `""`, `[]`
and the empty dict are falsy, everything else truthy. -/
def Json.truthy : Json → Bool
  | .null => false
  | .bool b => b
  | .int n => n != 0
  | .str s => s != ""
  | .arr l => !l.isEmpty
  | .obj l => !l.isEmpty

/-- Python `x.get(key, default)`: the stored value when the key is
present, the default otherwise; `Option.none` (an `AttributeError`) when
the receiver is not a dict. -/
def Json.get : Json → String → Json → Option Json
  | .obj fields, key, dflt =>
      some (match fields.find? (fun kv => kv.1 == key) with
            | some kv => kv.2
            | Option.none => dflt)
  | _, _, _ => Option.none

/-- View a JSON value as an array, erring (as Python iteration over a
non-iterable would raise) on anything else. -/
def Json.asArr : Json → Option (List Json)
  | .arr l => some l
  | _ => Option.none

/-- View a JSON value as a string, erring on anything else (Python
`str.join` raises `TypeError` on non-string elements). -/
def Json.asStr : Json → Option String
  | .str s => some s
  | _ => Option.none

mutual
/-- Python `repr` of a JSON value, as produced by `str` applied to a
list (`str(drugs)` in the source). -/
def Json.pyRepr : Json → String
  | .null => "None"
  | .bool true => "True"
  | .bool false => "False"
  | .int n => toString n
  | .str s => "\x27" ++ s ++ "\x27"
  | .arr l => "[" ++ pyReprSep l ++ "]"
  | .obj fields => "\x7b" ++ pyReprFields fields ++ "\x7d"

/-- Comma-separated `repr`s of the elements of a JSON array. -/
def pyReprSep : List Json → String
  | [] => ""
  | [j] => Json.pyRepr j
  | j :: rest => Json.pyRepr j ++ ", " ++ pyReprSep rest

/-- Comma-separated `repr`s of the fields of a JSON dict. -/
def pyReprFields : List (String × Json) → String
  | [] => ""
  | [kv] => "\x27" ++ kv.1 ++ "\x27: " ++ Json.pyRepr kv.2
  | kv :: rest =>
      "\x27" ++ kv.1 ++ "\x27: " ++ Json.pyRepr kv.2 ++ ", " ++ pyReprFields rest
end

/-- Python `str` of a JSON value: a string is returned as is, everything
else via its `repr`. -/
def Json.pyStr : Json → String
  | .str s => s
  | j => j.pyRepr

/-- Python `sep.join(x)`: succeeds exactly when `x` is an array of
strings. -/
def pyJoin (sep : String) (j : Json) : Option String := do
  let l ← j.asArr
  let ss ← l.mapM Json.asStr
  some (String.intercalate sep ss)

/-- The five supported endpoints (the keys of `FDAConnector.ENDPOINTS`). -/
inductive Endpoint where
  | drug_adverse_events
  | drug_labels
  | device_adverse_events
  | food_recalls
  | drug_recalls
deriving DecidableEq, Repr

/-- The configuration key naming each endpoint (`self.endpoint`). -/
def endpoint_key : Endpoint → String
  | .drug_adverse_events => "drug_adverse_events"
  | .drug_labels => "drug_labels"
  | .device_adverse_events => "device_adverse_events"
  | .food_recalls => "food_recalls"
  | .drug_recalls => "drug_recalls"

/-- The upstream path of each endpoint (the values of `ENDPOINTS`). -/
def endpoint_path : Endpoint → String
  | .drug_adverse_events => "/drug/event.json"
  | .drug_labels => "/drug/label.json"
  | .device_adverse_events => "/device/event.json"
  | .food_recalls => "/food/enforcement.json"
  | .drug_recalls => "/drug/enforcement.json"

/-- Does the first character list start with the second? -/
def chars_start_with : List Char → List Char → Bool
  | _, [] => true
  | [], _ :: _ => false
  | a :: as, b :: bs => a == b && chars_start_with as bs

/-- Does the first character list contain the second as a contiguous
run? -/
def chars_contain : List Char → List Char → Bool
  | [], sub => sub.isEmpty
  | c :: rest, sub => chars_start_with (c :: rest) sub || chars_contain rest sub

/-- Python substring membership `sub in s`. -/
def strContains (s sub : String) : Bool := chars_contain s.data sub.data

/-- Python `s.replace("-", "")` as applied to the start date: drops
every dash. -/
def replace_dashes (s : String) : String :=
  String.mk (s.data.filter (fun c => c != Char.ofNat 45))

/-- The connector state after `__init__`: a validated endpoint, the
optional API key and start date, and the clamped per-request limit. -/
structure Config where
  api_key : Option String
  endpoint : Endpoint
  start_date : Option String
  limit_per_request : Int
deriving Repr

/-- Line 58 of the source:
`min(int(configuration.get("limit_per_request", 100)), 1000)`.
The argument is the configured value after `int` conversion, absent when
the key is missing. -/
def init_limit_per_request (configured : Option Int) : Int :=
  min (configured.getD 100) 1000

/-- The query-parameter dict built per page request. -/
structure Params where
  limit : Int
  skip : Nat
  search : Option String
  api_key : Option String
deriving DecidableEq, Repr

/-- `FDAConnector._build_search_query`: always `limit` and `skip`; a
date-range `search` filter only when `self.start_date` is truthy and the
endpoint matches one of the two membership tests of the source. -/
def build_search_query (c : Config) (skip : Nat) : Params :=
  let base : Params :=
    { limit := c.limit_per_request, skip := skip,
      search := Option.none, api_key := Option.none }
  match c.start_date with
  | Option.none => base
  | some s =>
    if s == "" then base
    else
      let fromDate := replace_dashes s
      if c.endpoint = .drug_adverse_events ∨ c.endpoint = .device_adverse_events then
        { base with search := some ("receivedate:[" ++ fromDate ++ " TO 99991231]") }
      else if strContains (endpoint_key c.endpoint) "recalls"
           || strContains (endpoint_key c.endpoint) "enforcement" then
        { base with search := some ("report_date:[" ++ fromDate ++ " TO 99991231]") }
      else base

/-- One table description as returned by `FDAConnector.schema`. -/
structure TableSchema where
  table : String
  primary_key : List String
  columns : List (String × String)
deriving DecidableEq, Repr

/-- `FDAConnector.schema`: the per-endpoint table definition. -/
def schema : Endpoint → TableSchema
  | .drug_adverse_events =>
    { table := "fda_drug_adverse_events",
      primary_key := ["safetyreportid"],
      columns := [("safetyreportid", "STRING"), ("receivedate", "STRING"),
        ("patient_age", "FLOAT"), ("patient_sex", "STRING"),
        ("serious", "STRING"), ("serious_death", "STRING"),
        ("serious_hospitalization", "STRING"), ("drug_names", "STRING"),
        ("reactions", "STRING"), ("fetched_at", "TIMESTAMP")] }
  | .drug_labels =>
    { table := "fda_drug_labels",
      primary_key := ["id"],
      columns := [("id", "STRING"), ("effective_time", "STRING"),
        ("product_name", "STRING"), ("generic_name", "STRING"),
        ("manufacturer", "STRING"), ("indications_and_usage", "STRING"),
        ("warnings", "STRING"), ("dosage_and_administration", "STRING"),
        ("fetched_at", "TIMESTAMP")] }
  | .food_recalls =>
    { table := "fda_food_recalls",
      primary_key := ["recall_number"],
      columns := [("recall_number", "STRING"), ("report_date", "STRING"),
        ("product_description", "STRING"), ("reason_for_recall", "STRING"),
        ("company_name", "STRING"), ("classification", "STRING"),
        ("status", "STRING"), ("distribution_pattern", "STRING"),
        ("fetched_at", "TIMESTAMP")] }
  | .drug_recalls =>
    { table := "fda_drug_recalls",
      primary_key := ["recall_number"],
      columns := [("recall_number", "STRING"), ("report_date", "STRING"),
        ("product_description", "STRING"), ("reason_for_recall", "STRING"),
        ("company_name", "STRING"), ("classification", "STRING"),
        ("status", "STRING"), ("fetched_at", "TIMESTAMP")] }
  | .device_adverse_events =>
    { table := "fda_device_adverse_events",
      primary_key := ["mdr_report_key"],
      columns := [("mdr_report_key", "STRING"), ("report_number", "STRING"),
        ("date_received", "STRING"), ("device_name", "STRING"),
        ("manufacturer", "STRING"), ("event_type", "STRING"),
        ("adverse_event_flag", "STRING"), ("patient_problem", "STRING"),
        ("fetched_at", "TIMESTAMP")] }

/-- One value of a normalized record: a Python string, a raw JSON value
carried through unchanged, or Python `None`. -/
inductive PyVal where
  | str (s : String)
  | json (j : Json)
  | pynone
deriving Repr

/-- A normalized record: the flat dict built by `_extract_record_data`,
in construction order. -/
abbrev Record := List (String × PyVal)

/-- Keys of a record, in construction order. -/
def recordKeys (r : Record) : List String := r.map Prod.fst

/-- Column names declared by `schema` for an endpoint. -/
def schemaColumnKeys (e : Endpoint) : List String := (schema e).columns.map Prod.fst

/-- Build a record from fields whose values may err: the fields of a
Python dict literal are evaluated left to right and the first raised
exception aborts the whole record. -/
def recordOfFields (fields : List (String × Option PyVal)) : Option Record :=
  fields.mapM (fun kv => kv.2.map (fun v => (kv.1, v)))

/-- Lines 218-234: normalization for `drug_adverse_events`.  The two
comprehensions over `patient` run first; the dict passes
`safetyreportid`, `receivedate`, `patient_sex` through raw, applies
`str` to the seriousness fields and to the two collected lists, and
maps a falsy `patientonsetage` to `None` (its default 0.0 is modelled
as integer 0; it is only read when the key is truthy). -/
def extract_drug_adverse_events (fetched_at : String) (result : Json) : Option Record :=
  (result.get "patient" (Json.obj [])).bind fun patient =>
  ((patient.get "reaction" (Json.arr [])).bind Json.asArr).bind fun reactionsRaw =>
  (reactionsRaw.mapM (fun (r : Json) => r.get "reactionmeddrapt" (Json.str ""))).bind fun reactions =>
  ((patient.get "drug" (Json.arr [])).bind Json.asArr).bind fun drugsRaw =>
  (drugsRaw.mapM (fun (d : Json) => d.get "medicinalproduct" (Json.str ""))).bind fun drugs =>
  recordOfFields [
    ("safetyreportid", (result.get "safetyreportid" (Json.str "")).map PyVal.json),
    ("receivedate", (result.get "receivedate" (Json.str "")).map PyVal.json),
    ("patient_age", (patient.get "patientonsetage" Json.null).bind fun ageTest =>
       (patient.get "patientonsetage" (Json.int 0)).map fun ageVal =>
       if ageTest.truthy then PyVal.json ageVal else PyVal.pynone),
    ("patient_sex", (patient.get "patientsex" (Json.str "")).map PyVal.json),
    ("serious", (result.get "serious" (Json.str "")).map fun j => PyVal.str j.pyStr),
    ("serious_death", (result.get "seriousnessdeath" (Json.str "")).map fun j => PyVal.str j.pyStr),
    ("serious_hospitalization",
       (result.get "seriousnesshospitalization" (Json.str "")).map fun j => PyVal.str j.pyStr),
    ("drug_names", some (PyVal.str (Json.arr drugs).pyRepr)),
    ("reactions", some (PyVal.str (Json.arr reactions).pyRepr)),
    ("fetched_at", some (PyVal.str fetched_at))]

/-- Lines 236-248: normalization for `drug_labels`: joined string fields
from `openfda` and the top-level narrative arrays. -/
def extract_drug_labels (fetched_at : String) (result : Json) : Option Record :=
  (result.get "openfda" (Json.obj [])).bind fun openfda =>
  recordOfFields [
    ("id", (result.get "id" (Json.str "")).map PyVal.json),
    ("effective_time", (result.get "effective_time" (Json.str "")).map PyVal.json),
    ("product_name",
       ((openfda.get "brand_name" (Json.arr [])).bind (pyJoin ", ")).map PyVal.str),
    ("generic_name",
       ((openfda.get "generic_name" (Json.arr [])).bind (pyJoin ", ")).map PyVal.str),
    ("manufacturer",
       ((openfda.get "manufacturer_name" (Json.arr [])).bind (pyJoin ", ")).map PyVal.str),
    ("indications_and_usage",
       ((result.get "indications_and_usage" (Json.arr [])).bind (pyJoin " ")).map PyVal.str),
    ("warnings",
       ((result.get "warnings" (Json.arr [])).bind (pyJoin " ")).map PyVal.str),
    ("dosage_and_administration",
       ((result.get "dosage_and_administration" (Json.arr [])).bind (pyJoin " ")).map PyVal.str),
    ("fetched_at", some (PyVal.str fetched_at))]

/-- Lines 250-261: the shared branch for `food_recalls` and
`drug_recalls`.  The `distribution_pattern` key is always present; its
value is the raw field for `food_recalls` and the empty string
otherwise. -/
def extract_recalls (e : Endpoint) (fetched_at : String) (result : Json) : Option Record :=
  recordOfFields [
    ("recall_number", (result.get "recall_number" (Json.str "")).map PyVal.json),
    ("report_date", (result.get "report_date" (Json.str "")).map PyVal.json),
    ("product_description", (result.get "product_description" (Json.str "")).map PyVal.json),
    ("reason_for_recall", (result.get "reason_for_recall" (Json.str "")).map PyVal.json),
    ("company_name", (result.get "recalling_firm" (Json.str "")).map PyVal.json),
    ("classification", (result.get "classification" (Json.str "")).map PyVal.json),
    ("status", (result.get "status" (Json.str "")).map PyVal.json),
    ("distribution_pattern",
       if e = Endpoint.food_recalls then
         (result.get "distribution_pattern" (Json.str "")).map PyVal.json
       else some (PyVal.str "")),
    ("fetched_at", some (PyVal.str fetched_at))]

/-- Helper for the two `result.get("device", [{}])[0].get(...)` fields
of the device branch: errs when `device` is a truthy non-array or an
empty array (`IndexError`), matching the source expression. -/
def device_field (key : String) (result : Json) : Option PyVal :=
  (result.get "device" (Json.arr [Json.obj []])).bind fun dev =>
  dev.asArr.bind fun devList =>
  match devList.head? with
  | some first => (first.get key (Json.str "")).map PyVal.json
  | Option.none => Option.none

/-- Helper for the `patient_problem` comprehension-and-join of the
device branch. -/
def patient_problem_field (result : Json) : Option PyVal :=
  ((result.get "patient" (Json.arr [])).bind Json.asArr).bind fun pat =>
  (pat.mapM (fun (p : Json) => p.get "patient_problem_code" (Json.str ""))).bind fun codes =>
  (codes.mapM Json.asStr).map fun strs => PyVal.str (String.intercalate ", " strs)

/-- Lines 263-274: normalization for `device_adverse_events`.  The two
device fields index `result["device"][0]` when `device` is truthy, and
`patient_problem` joins the collected codes when `patient` is truthy.
The two truthiness probes err exactly when `result` is not a dict, in
which case the first field errs as well. -/
def extract_device_adverse_events (fetched_at : String) (result : Json) : Option Record :=
  (result.get "device" Json.null).bind fun devTest =>
  (result.get "patient" Json.null).bind fun patTest =>
  recordOfFields [
    ("mdr_report_key", (result.get "mdr_report_key" (Json.str "")).map PyVal.json),
    ("report_number", (result.get "report_number" (Json.str "")).map PyVal.json),
    ("date_received", (result.get "date_received" (Json.str "")).map PyVal.json),
    ("device_name",
       if devTest.truthy then device_field "generic_name" result
       else some (PyVal.str "")),
    ("manufacturer",
       if devTest.truthy then device_field "manufacturer_d_name" result
       else some (PyVal.str "")),
    ("event_type", (result.get "event_type" (Json.str "")).map PyVal.json),
    ("adverse_event_flag", (result.get "adverse_event_flag" (Json.str "")).map PyVal.json),
    ("patient_problem",
       if patTest.truthy then patient_problem_field result
       else some (PyVal.str "")),
    ("fetched_at", some (PyVal.str fetched_at))]

/-- `FDAConnector._extract_record_data`: dispatch on the endpoint. -/
def extract_record_data (e : Endpoint) (fetched_at : String) (result : Json) : Option Record :=
  match e with
  | .drug_adverse_events => extract_drug_adverse_events fetched_at result
  | .drug_labels => extract_drug_labels fetched_at result
  | .food_recalls => extract_recalls .food_recalls fetched_at result
  | .drug_recalls => extract_recalls .drug_recalls fetched_at result
  | .device_adverse_events => extract_device_adverse_events fetched_at result

/-- Response body as the loop sees it: only the optional `results` array
matters (a falsy body and a body without `results` stop the loop
identically). -/
structure Body where
  results : Option (List Json)
deriving Repr

/-- One upstream HTTP response to a single GET attempt. -/
inductive HttpResponse where
  | rateLimited
  | transportError
  | success (body : Body)
deriving Repr

/-- `FDAConnector._make_request` run against the successive responses
the upstream gives to one repeated request: a 429 sleeps 60 seconds and
recurses on the same request, any transport failure or non-2xx status
returns `Option.none`, a success returns the JSON body.  The second
component records the sleep durations observed.  An exhausted response
list is read as a transport error. -/
def make_request : List HttpResponse → Option Body × List Nat
  | [] => (Option.none, [])
  | .rateLimited :: rest =>
      let r := make_request rest
      (r.1, 60 :: r.2)
  | .transportError :: _ => (Option.none, [])
  | .success b :: _ => (some b, [])

/-- The fetch function `update` sees, induced by an HTTP oracle mapping
each request to the successive responses its retries receive. -/
def fetch_of (h : Params → List HttpResponse) (p : Params) : Option Body :=
  (make_request (h p)).1

/-- Events yielded by `update`: Fivetran UPSERT and STATE messages. -/
inductive Event where
  | upsert (table : String) (data : Record)
  | state (skip : Nat)
deriving Repr

/-- The UPSERT events produced for one page: one per raw item whose
normalization succeeds, in page order (the per-item try/except skips
failures and continues). -/
def page_upserts (e : Endpoint) (fetched_at : String) (results : List Json) : List Event :=
  results.filterMap (fun r =>
    (extract_record_data e fetched_at r).map
      (fun rec => Event.upsert (schema e).table rec))

/-- The `while True:` loop of `FDAConnector.update`, with explicit fuel
(one unit per iteration).  Returns the page requests issued and the
events yielded.  Each iteration builds the page request and fetches;
a failed fetch, a body without `results`, or an empty results list stops
the loop; otherwise the page's upserts are yielded, then the advanced
STATE checkpoint, and a page shorter than `limit_per_request` stops the
loop. -/
def update_loop (c : Config) (fetched_at : String) (fetch : Params → Option Body) :
    Nat → Nat → List Params × List Event
  | 0, _ => ([], [])
  | fuel + 1, skip =>
    let p := build_search_query c skip
    match fetch p with
    | Option.none => ([p], [])
    | some body =>
      match body.results with
      | Option.none => ([p], [])
      | some results =>
        if results.isEmpty then ([p], [])
        else
          let ups := page_upserts c.endpoint fetched_at results
          let skip2 := skip + results.length
          if (results.length : Int) < c.limit_per_request then
            ([p], ups ++ [Event.state skip2])
          else
            let rest := update_loop c fetched_at fetch fuel skip2
            (p :: rest.1, ups ++ Event.state skip2 :: rest.2)

/-- `FDAConnector.update(state)`: reads `state.get("skip", 0)` and runs
the loop from there. -/
def update (c : Config) (fetched_at : String) (fetch : Params → Option Body)
    (fuel : Nat) (state : Option Nat) : List Params × List Event :=
  update_loop c fetched_at fetch fuel (state.getD 0)

/-- Offsets carried by the STATE events, in emission order. -/
def state_offsets (es : List Event) : List Nat :=
  es.filterMap (fun e => match e with | Event.state n => some n | _ => Option.none)

/-- Is an event an UPSERT message? -/
def is_upsert : Event → Bool
  | Event.upsert _ _ => true
  | Event.state _ => false

/-- Number of UPSERT events in a sequence. -/
def count_upserts (es : List Event) : Nat := es.countP is_upsert

/-- A finite upstream source holding exactly the given items, served in
slices: each request returns the items from `skip` up to `skip + limit`. -/
def list_source (items : List Json) (p : Params) : Option Body :=
  some { results := some ((items.drop p.skip).take p.limit.toNat) }

/-- One checkpoint advance: the offsets are linked by the non-empty page
fetched at the earlier offset. -/
def advances (c : Config) (fetch : Params → Option Body) (a b : Nat) : Prop :=
  a ≤ b ∧ ∃ l, l ≠ [] ∧ fetch (build_search_query c a) = some { results := some l }
    ∧ b = a + l.length

/-- Sample configuration used by the concrete witnesses below. -/
def sample_config (e : Endpoint) (P : Int) : Config :=
  { api_key := Option.none, endpoint := e, start_date := Option.none,
    limit_per_request := P }

/-- Three trivially normalizable raw items. -/
def sample_items : List Json := [Json.obj [], Json.obj [], Json.obj []]

/-- One raw item that fails `drug_adverse_events` normalization: its
patient field is a string, so `patient.get(...)` raises. -/
def bad_item : Json := Json.obj [("patient", Json.str "x")]

lemma count_upserts_append (a b : List Event) :
    count_upserts (a ++ b) = count_upserts a + count_upserts b := by
  simp [count_upserts, List.countP_append]

lemma state_offsets_append (a b : List Event) :
    state_offsets (a ++ b) = state_offsets a ++ state_offsets b := by
  simp [state_offsets, List.filterMap_append]

lemma state_offsets_page_upserts (e : Endpoint) (t : String) (l : List Json) :
    state_offsets (page_upserts e t l) = [] := by
  induction l with
  | nil => rfl
  | cons x xs ih =>
    simp only [page_upserts, List.filterMap_cons] at ih ⊢
    cases h : (extract_record_data e t x).map
        (fun rec => Event.upsert (schema e).table rec) with
    | none => simpa using ih
    | some ev =>
      obtain ⟨rec, -, rfl⟩ := Option.map_eq_some'.mp h
      simpa [state_offsets] using ih

lemma count_upserts_page_upserts (e : Endpoint) (t : String) (l : List Json) :
    count_upserts (page_upserts e t l) = (page_upserts e t l).length := by
  induction l with
  | nil => rfl
  | cons x xs ih =>
    simp only [page_upserts, List.filterMap_cons] at ih ⊢
    cases h : (extract_record_data e t x).map
        (fun rec => Event.upsert (schema e).table rec) with
    | none => simpa using ih
    | some ev =>
      obtain ⟨rec, -, rfl⟩ := Option.map_eq_some'.mp h
      simpa [count_upserts, is_upsert] using ih

lemma page_upserts_length (e : Endpoint) (t : String) (l : List Json) :
    (page_upserts e t l).length
      = l.countP (fun r => (extract_record_data e t r).isSome) := by
  induction l with
  | nil => rfl
  | cons x xs ih =>
    simp only [page_upserts, List.filterMap_cons, List.countP_cons] at ih ⊢
    cases h : extract_record_data e t x with
    | none => simp [h, ih, Option.isSome]
    | some rec => simp [h, ih, Option.isSome]

lemma build_search_query_skip (c : Config) (k : Nat) :
    (build_search_query c k).skip = k := by
  unfold build_search_query
  cases c.start_date with
  | none => rfl
  | some s =>
    dsimp only
    split
    · rfl
    · split
      · rfl
      · split <;> rfl

lemma build_search_query_limit (c : Config) (k : Nat) :
    (build_search_query c k).limit = c.limit_per_request := by
  unfold build_search_query
  cases c.start_date with
  | none => rfl
  | some s =>
    dsimp only
    split
    · rfl
    · split
      · rfl
      · split <;> rfl

lemma update_loop_stop (c : Config) (t : String) (fetch : Params → Option Body)
    (fuel skip : Nat)
    (h : fetch (build_search_query c skip) = Option.none ∨
         fetch (build_search_query c skip) = some { results := Option.none } ∨
         fetch (build_search_query c skip) = some { results := some [] }) :
    update_loop c t fetch (fuel + 1) skip = ([build_search_query c skip], []) := by
  rcases h with h | h | h <;> simp [update_loop, h]

lemma update_loop_page (c : Config) (t : String) (fetch : Params → Option Body)
    (fuel skip : Nat) (l : List Json)
    (h : fetch (build_search_query c skip) = some { results := some l })
    (hne : l ≠ []) :
    update_loop c t fetch (fuel + 1) skip =
      if (l.length : Int) < c.limit_per_request then
        ([build_search_query c skip],
         page_upserts c.endpoint t l ++ [Event.state (skip + l.length)])
      else
        (build_search_query c skip :: (update_loop c t fetch fuel (skip + l.length)).1,
         page_upserts c.endpoint t l
           ++ Event.state (skip + l.length)
             :: (update_loop c t fetch fuel (skip + l.length)).2) := by
  simp [update_loop, h, hne]

lemma list_source_fetch (c : Config) (items : List Json) (P k : Nat)
    (hlim : c.limit_per_request = (P : Int)) :
    list_source items (build_search_query c k)
      = some { results := some ((items.drop k).take P) } := by
  simp [list_source, build_search_query_skip, build_search_query_limit, hlim]

lemma update_loop_list_source (c : Config) (t : String) (items : List Json) (P : Nat)
    (hP : 0 < P) (hlim : c.limit_per_request = (P : Int))
    (hnorm : ∀ r ∈ items, (extract_record_data c.endpoint t r).isSome = true) :
    ∀ fuel k, k ≤ items.length → items.length - k < fuel →
      count_upserts (update_loop c t (list_source items) fuel k).2 = items.length - k ∧
      (state_offsets (update_loop c t (list_source items) fuel k).2).length
        = (items.length - k + P - 1) / P ∧
      (k < items.length →
        (state_offsets (update_loop c t (list_source items) fuel k).2).getLast?
          = some items.length) := by
  intro fuel
  induction fuel with
  | zero => intro k hk hf; omega
  | succ fuel ih =>
    intro k hk hf
    have hpage := list_source_fetch c items P k hlim
    set N := items.length with hN
    set l := (items.drop k).take P with hl
    have hlen : l.length = min P (N - k) := by
      simp [hl, List.length_take, List.length_drop, hN]
    have hnl : ∀ r ∈ l, (extract_record_data c.endpoint t r).isSome = true := by
      intro r hr
      exact hnorm r (List.mem_of_mem_drop (List.mem_of_mem_take hr))
    have hupl : (page_upserts c.endpoint t l).length = l.length := by
      rw [page_upserts_length]
      exact List.countP_eq_length.mpr hnl
    by_cases hkN : N ≤ k
    · -- at or past the end: the served page is empty, the loop stops
      have hk0 : k = N := le_antisymm hk hkN
      have hempty : l = [] := by
        apply List.eq_nil_of_length_eq_zero; omega
      rw [update_loop_stop c t _ fuel k (Or.inr (Or.inr (hempty ▸ hpage)))]
      have h1 : N - k = 0 := by omega
      refine ⟨?_, ?_, ?_⟩
      · simp [count_upserts, h1]
      · simp [state_offsets, h1, Nat.div_eq_of_lt (show P - 1 < P by omega)]
      · intro h; omega
    · push_neg at hkN
      have hlne : l ≠ [] := by
        intro h0
        rw [h0] at hlen
        simp at hlen
        omega
      rw [update_loop_page c t _ fuel k l hpage hlne]
      by_cases hshort : N - k < P
      · -- final short page: N - k items, one last checkpoint at N
        have hll : l.length = N - k := by omega
        have hcond : ((l.length : Int) < c.limit_per_request) := by
          rw [hlim]
          exact_mod_cast (show l.length < P by omega)
        rw [if_pos hcond]
        refine ⟨?_, ?_, ?_⟩
        · rw [count_upserts_append, count_upserts_page_upserts, hupl, hll]
          simp [count_upserts, List.countP_cons, is_upsert]
        · rw [state_offsets_append, state_offsets_page_upserts]
          have h2 : N - k + P - 1 = (N - k - 1) + P := by omega
          rw [h2, Nat.add_div_right _ hP, Nat.div_eq_of_lt (show N - k - 1 < P by omega)]
          simp [state_offsets]
        · intro h
          rw [state_offsets_append, state_offsets_page_upserts]
          simp [state_offsets, hll]
          omega
      · -- full page: P items, checkpoint at k + P, recurse
        push_neg at hshort
        have hll : l.length = P := by omega
        have hcond : ¬ ((l.length : Int) < c.limit_per_request) := by
          rw [hlim, hll]
          omega
        rw [if_neg hcond]
        obtain ⟨ih1, ih2, ih3⟩ := ih (k + l.length)
          (by omega) (by omega)
        refine ⟨?_, ?_, ?_⟩
        · rw [count_upserts_append, count_upserts_page_upserts, hupl]
          have hst : count_upserts
              (Event.state (k + l.length)
                :: (update_loop c t (list_source items) fuel (k + l.length)).2)
              = count_upserts (update_loop c t (list_source items) fuel (k + l.length)).2 := by
            simp [count_upserts, List.countP_cons, is_upsert]
          rw [hst, ih1]
          omega
        · rw [state_offsets_append, state_offsets_page_upserts]
          simp only [state_offsets, List.filterMap_cons] at ih2 ⊢
          rw [List.nil_append]
          simp only [List.length_cons]
          rw [ih2]
          have h3 : N - (k + l.length) + P - 1 = N - k - 1 := by omega
          have h4 : N - k + P - 1 = (N - k - 1) + P := by omega
          rw [h3, h4, Nat.add_div_right _ hP]
        · intro h
          rw [state_offsets_append, state_offsets_page_upserts, List.nil_append]
          simp only [state_offsets, List.filterMap_cons] at ih3 ⊢
          by_cases hend : k + l.length < N
          · have hlast := ih3 hend
            cases hrest : (update_loop c t (list_source items) fuel (k + l.length)).2.filterMap
                (fun e => match e with | Event.state n => some n | _ => Option.none) with
            | nil =>
              rw [hrest] at hlast
              simp at hlast
            | cons b l2 =>
              rw [hrest] at hlast
              rw [List.getLast?_cons_cons]
              exact hlast
          · -- the page ended exactly at N: no further checkpoints
            have hkn : k + l.length = N := by omega
            have hz : (N - (k + l.length) + P - 1) / P = 0 :=
              Nat.div_eq_of_lt (by omega)
            rw [hz] at ih2
            have hnil := List.eq_nil_of_length_eq_zero ih2
            simp only [state_offsets] at hnil
            rw [hnil]
            simp [hkn]

lemma state_offsets_cons_state (n : Nat) (es : List Event) :
    state_offsets (Event.state n :: es) = n :: state_offsets es := by
  simp [state_offsets]

lemma update_loop_offsets_chain (c : Config) (t : String) (fetch : Params → Option Body) :
    ∀ fuel skip, List.Chain (advances c fetch) skip
      (state_offsets (update_loop c t fetch fuel skip).2) := by
  intro fuel
  induction fuel with
  | zero => intro skip; exact List.Chain.nil
  | succ fuel ih =>
    intro skip
    cases hf : fetch (build_search_query c skip) with
    | none =>
      rw [update_loop_stop c t fetch fuel skip (Or.inl hf)]
      exact List.Chain.nil
    | some body =>
      rcases body with ⟨_ | l⟩
      · rw [update_loop_stop c t fetch fuel skip (Or.inr (Or.inl hf))]
        exact List.Chain.nil
      · by_cases hl : l = []
        · subst hl
          rw [update_loop_stop c t fetch fuel skip (Or.inr (Or.inr hf))]
          exact List.Chain.nil
        · rw [update_loop_page c t fetch fuel skip l hf hl]
          have hadv : advances c fetch skip (skip + l.length) :=
            ⟨Nat.le_add_right _ _, l, hl, hf, rfl⟩
          split
          · rw [state_offsets_append, state_offsets_page_upserts, List.nil_append]
            exact List.Chain.cons hadv List.Chain.nil
          · rw [state_offsets_append, state_offsets_page_upserts, List.nil_append,
              state_offsets_cons_state]
            exact List.Chain.cons hadv (ih (skip + l.length))

lemma update_loop_offsets_gt (c : Config) (t : String) (fetch : Params → Option Body) :
    ∀ fuel skip, ∀ n ∈ state_offsets (update_loop c t fetch fuel skip).2, skip < n := by
  intro fuel
  induction fuel with
  | zero => intro skip n hn; simp [update_loop, state_offsets] at hn
  | succ fuel ih =>
    intro skip n hn
    cases hf : fetch (build_search_query c skip) with
    | none =>
      rw [update_loop_stop c t fetch fuel skip (Or.inl hf)] at hn
      simp [state_offsets] at hn
    | some body =>
      rcases body with ⟨_ | l⟩
      · rw [update_loop_stop c t fetch fuel skip (Or.inr (Or.inl hf))] at hn
        simp [state_offsets] at hn
      · by_cases hl : l = []
        · subst hl
          rw [update_loop_stop c t fetch fuel skip (Or.inr (Or.inr hf))] at hn
          simp [state_offsets] at hn
        · have hpos : 0 < l.length := List.length_pos.mpr hl
          rw [update_loop_page c t fetch fuel skip l hf hl] at hn
          revert hn
          split
          · intro hn
            rw [state_offsets_append, state_offsets_page_upserts, List.nil_append] at hn
            simp [state_offsets] at hn
            omega
          · intro hn
            rw [state_offsets_append, state_offsets_page_upserts, List.nil_append,
              state_offsets_cons_state] at hn
            rcases List.mem_cons.mp hn with h | h
            · omega
            · have := ih (skip + l.length) n h
              omega

lemma recordOfFields_keys : ∀ (fields : List (String × Option PyVal)) (rec : Record),
    recordOfFields fields = some rec → rec.map Prod.fst = fields.map Prod.fst := by
  intro fields
  induction fields with
  | nil =>
    intro rec h
    simp only [recordOfFields, List.mapM_nil, Option.pure_def, Option.some_inj] at h
    subst h
    rfl
  | cons kv rest ih =>
    intro rec h
    simp only [recordOfFields, List.mapM_cons] at h ih
    cases hv : kv.2 with
    | none => rw [hv] at h; simp at h
    | some v =>
      rw [hv] at h
      cases hr : rest.mapM (fun kv => kv.2.map (fun v => (kv.1, v))) with
      | none => rw [hr] at h; simp at h
      | some recs =>
        rw [hr] at h
        simp at h
        subst h
        simp [ih recs hr]

lemma extract_drug_adverse_events_keys (t : String) (raw : Json) (rec : Record)
    (h : extract_drug_adverse_events t raw = some rec) :
    rec.map Prod.fst = ["safetyreportid", "receivedate", "patient_age", "patient_sex",
      "serious", "serious_death", "serious_hospitalization", "drug_names",
      "reactions", "fetched_at"] := by
  simp only [extract_drug_adverse_events, Option.bind_eq_some] at h
  obtain ⟨p, -, rr, -, re, -, dr, -, ds, -, hrec⟩ := h
  simpa using recordOfFields_keys _ rec hrec

lemma extract_drug_labels_keys (t : String) (raw : Json) (rec : Record)
    (h : extract_drug_labels t raw = some rec) :
    rec.map Prod.fst = ["id", "effective_time", "product_name", "generic_name",
      "manufacturer", "indications_and_usage", "warnings",
      "dosage_and_administration", "fetched_at"] := by
  simp only [extract_drug_labels, Option.bind_eq_some] at h
  obtain ⟨o, -, hrec⟩ := h
  simpa using recordOfFields_keys _ rec hrec

lemma extract_recalls_keys (e : Endpoint) (t : String) (raw : Json) (rec : Record)
    (h : extract_recalls e t raw = some rec) :
    rec.map Prod.fst = ["recall_number", "report_date", "product_description",
      "reason_for_recall", "company_name", "classification", "status",
      "distribution_pattern", "fetched_at"] := by
  simp only [extract_recalls] at h
  simpa using recordOfFields_keys _ rec h

lemma extract_device_adverse_events_keys (t : String) (raw : Json) (rec : Record)
    (h : extract_device_adverse_events t raw = some rec) :
    rec.map Prod.fst = ["mdr_report_key", "report_number", "date_received",
      "device_name", "manufacturer", "event_type", "adverse_event_flag",
      "patient_problem", "fetched_at"] := by
  simp only [extract_device_adverse_events, Option.bind_eq_some] at h
  obtain ⟨d, -, p, -, hrec⟩ := h
  simpa using recordOfFields_keys _ rec hrec

lemma update_eq_update_loop (c : Config) (t : String) (fetch : Params → Option Body)
    (fuel skip : Nat) :
    update c t fetch fuel (some skip) = update_loop c t fetch fuel skip := rfl

/-- C1: against an upstream source holding exactly N items, served in
slices of at most page_size P (every item normalizable), `update`
started from offset 0 emits exactly N UPSERT events, ceil(N/P) STATE
checkpoints, and the offset carried by the last checkpoint is N (there
is no checkpoint at all when N = 0). -/
theorem claim_C1 (c : Config) (t : String) (items : List Json) (P : Nat)
    (hP : 0 < P) (hlim : c.limit_per_request = (P : Int))
    (hnorm : ∀ r ∈ items, (extract_record_data c.endpoint t r).isSome = true)
    (fuel : Nat) (hfuel : items.length < fuel) :
    count_upserts (update c t (list_source items) fuel (some 0)).2 = items.length ∧
    (state_offsets (update c t (list_source items) fuel (some 0)).2).length
      = (items.length + P - 1) / P ∧
    (0 < items.length →
      (state_offsets (update c t (list_source items) fuel (some 0)).2).getLast?
        = some items.length) := by
  have h := update_loop_list_source c t items P hP hlim hnorm fuel 0
    (Nat.zero_le _) (by omega)
  simpa [update_eq_update_loop] using h

theorem claim_C1_witness :
    count_upserts (update (sample_config Endpoint.food_recalls 2) "t"
        (list_source sample_items) 4 (some 0)).2 = sample_items.length ∧
    (state_offsets (update (sample_config Endpoint.food_recalls 2) "t"
        (list_source sample_items) 4 (some 0)).2).length
      = (sample_items.length + 2 - 1) / 2 ∧
    (0 < sample_items.length →
      (state_offsets (update (sample_config Endpoint.food_recalls 2) "t"
          (list_source sample_items) 4 (some 0)).2).getLast?
        = some sample_items.length) :=
  claim_C1 (sample_config Endpoint.food_recalls 2) "t" sample_items 2
    (by decide) rfl (by decide) 4 (by decide)

/-- C2: whenever the fetched page holds fewer than page_size items,
including the empty page arising exactly at a page boundary, the run
ends after processing that page: the one request is the only request
issued and the events stop after that page's upserts and checkpoint
(no events at all for an empty page). -/
theorem claim_C2 (c : Config) (t : String) (fetch : Params → Option Body)
    (skip : Nat) (l : List Json) (fuel : Nat)
    (hf : fetch (build_search_query c skip) = some { results := some l })
    (hshort : (l.length : Int) < c.limit_per_request) (hfuel : 0 < fuel) :
    update c t fetch fuel (some skip)
      = ([build_search_query c skip],
         if l.isEmpty then []
         else page_upserts c.endpoint t l ++ [Event.state (skip + l.length)]) := by
  obtain ⟨fuel, rfl⟩ : ∃ m, fuel = m + 1 := ⟨fuel - 1, by omega⟩
  rw [update_eq_update_loop]
  by_cases hl : l = []
  · subst hl
    rw [update_loop_stop c t fetch fuel skip (Or.inr (Or.inr hf))]
    simp
  · rw [update_loop_page c t fetch fuel skip l hf hl, if_pos hshort]
    simp [List.isEmpty_iff, hl]

theorem claim_C2_witness :
    update (sample_config Endpoint.food_recalls 5) "t" (list_source sample_items) 1 (some 0)
      = ([build_search_query (sample_config Endpoint.food_recalls 5) 0],
         if sample_items.isEmpty then []
         else page_upserts Endpoint.food_recalls "t" sample_items
           ++ [Event.state (0 + sample_items.length)]) :=
  claim_C2 (sample_config Endpoint.food_recalls 5) "t" (list_source sample_items)
    0 sample_items 1 rfl (by decide) (by decide)

/-- C4: a failed fetch, a response without a results field, and an empty
result list all stop the run identically: the sequence terminates
normally with no events, one and the same terminal state for
unrecoverable errors and legitimate end of data. -/
theorem claim_C4 (c : Config) (t : String) (fetch : Params → Option Body)
    (skip fuel : Nat) (hfuel : 0 < fuel)
    (h : fetch (build_search_query c skip) = Option.none ∨
         fetch (build_search_query c skip) = some { results := Option.none } ∨
         fetch (build_search_query c skip) = some { results := some [] }) :
    update c t fetch fuel (some skip) = ([build_search_query c skip], []) := by
  obtain ⟨fuel, rfl⟩ : ∃ m, fuel = m + 1 := ⟨fuel - 1, by omega⟩
  rw [update_eq_update_loop]
  exact update_loop_stop c t fetch fuel skip h

theorem claim_C4_witness :
    update (sample_config Endpoint.drug_labels 100) "t"
        (fun _ => Option.none) 1 (some 7)
      = ([build_search_query (sample_config Endpoint.drug_labels 100) 7], []) :=
  claim_C4 (sample_config Endpoint.drug_labels 100) "t" (fun _ => Option.none)
    7 1 (by decide) (Or.inl rfl)

/-- C7: within one run of `update` from any offset, successive STATE
offsets are monotonically non-decreasing and each equals the previous
offset plus the length of the (non-empty) page fetched there. -/
theorem claim_C7 (c : Config) (t : String) (fetch : Params → Option Body)
    (fuel skip : Nat) :
    List.Chain (advances c fetch) skip
      (state_offsets (update c t fetch fuel (some skip)).2) :=
  update_loop_offsets_chain c t fetch fuel skip

/-- C10: when the very first fetch fails, lacks a results field, or
returns an empty list, `update` yields no events at all — in particular
no STATE event echoing the initial offset; and in general every emitted
STATE offset strictly exceeds the starting offset, so a checkpoint is
only emitted after a non-empty page. -/
theorem claim_C10 (c : Config) (t : String) (fetch : Params → Option Body)
    (fuel skip : Nat) :
    ((fetch (build_search_query c skip) = Option.none ∨
      fetch (build_search_query c skip) = some { results := Option.none } ∨
      fetch (build_search_query c skip) = some { results := some [] }) →
        (update c t fetch fuel (some skip)).2 = []) ∧
    (∀ n ∈ state_offsets (update c t fetch fuel (some skip)).2, skip < n) := by
  constructor
  · intro h
    cases fuel with
    | zero => rfl
    | succ fuel =>
      rw [update_eq_update_loop, update_loop_stop c t fetch fuel skip h]
  · exact update_loop_offsets_gt c t fetch fuel skip

theorem claim_C10_witness :
    (update (sample_config Endpoint.drug_recalls 100) "t"
        (fun _ => Option.none) 3 (some 5)).2 = [] ∧
    (∀ n ∈ state_offsets (update (sample_config Endpoint.drug_recalls 100) "t"
        (fun _ => Option.none) 3 (some 5)).2, 5 < n) :=
  ⟨(claim_C10 (sample_config Endpoint.drug_recalls 100) "t"
      (fun _ => Option.none) 3 5).1 (Or.inl rfl),
   (claim_C10 (sample_config Endpoint.drug_recalls 100) "t"
      (fun _ => Option.none) 3 5).2⟩

lemma countP_split {α : Type} (p : α → Bool) :
    ∀ l : List α, l.countP p + l.countP (fun a => !p a) = l.length := by
  intro l
  induction l with
  | nil => rfl
  | cons a as ih =>
    by_cases hp : p a <;> simp [List.countP_cons, hp] <;> omega

lemma take_len_succ_append (ups : List Event) (ev : Event) (rest : List Event) :
    (ups ++ ev :: rest).take (ups.length + 1) = ups ++ [ev] := by
  induction ups with
  | nil => simp
  | cons a as ih => simp [ih]

/-- C3: when exactly one item of a fetched page of M raw items fails
normalization, the page yields exactly M-1 UPSERT events, the page and
the run are not aborted, and the page's STATE checkpoint still advances
the offset by the full M. -/
theorem claim_C3 (c : Config) (t : String) (fetch : Params → Option Body)
    (skip : Nat) (l : List Json) (fuel : Nat)
    (hf : fetch (build_search_query c skip) = some { results := some l })
    (hfail : l.countP (fun r => !(extract_record_data c.endpoint t r).isSome) = 1)
    (hfuel : 0 < fuel) :
    (page_upserts c.endpoint t l).length = l.length - 1 ∧
    (update c t fetch fuel (some skip)).2.take ((l.length - 1) + 1)
      = page_upserts c.endpoint t l ++ [Event.state (skip + l.length)] := by
  have hsplit := countP_split (fun r => (extract_record_data c.endpoint t r).isSome) l
  have hcnt : l.countP (fun r => (extract_record_data c.endpoint t r).isSome)
      = l.length - 1 := by omega
  have hlen : (page_upserts c.endpoint t l).length = l.length - 1 := by
    rw [page_upserts_length, hcnt]
  have hne : l ≠ [] := by
    intro h0
    subst h0
    rw [List.countP_nil] at hfail
    omega
  obtain ⟨fuel, rfl⟩ : ∃ m, fuel = m + 1 := ⟨fuel - 1, by omega⟩
  rw [update_eq_update_loop, update_loop_page c t fetch fuel skip l hf hne]
  refine ⟨hlen, ?_⟩
  have htake : (l.length - 1) + 1 = (page_upserts c.endpoint t l).length + 1 := by omega
  rw [htake]
  split
  · exact take_len_succ_append (page_upserts c.endpoint t l)
      (Event.state (skip + l.length)) []
  · exact take_len_succ_append (page_upserts c.endpoint t l)
      (Event.state (skip + l.length))
      (update_loop c t fetch fuel (skip + l.length)).2

theorem claim_C3_witness :
    (page_upserts Endpoint.drug_adverse_events "t" [bad_item, Json.obj []]).length
      = [bad_item, Json.obj []].length - 1 ∧
    (update (sample_config Endpoint.drug_adverse_events 2) "t"
        (fun _ => some { results := some [bad_item, Json.obj []] }) 1 (some 0)).2.take
          (([bad_item, Json.obj []].length - 1) + 1)
      = page_upserts Endpoint.drug_adverse_events "t" [bad_item, Json.obj []]
        ++ [Event.state (0 + [bad_item, Json.obj []].length)] :=
  claim_C3 (sample_config Endpoint.drug_adverse_events 2) "t"
    (fun _ => some { results := some [bad_item, Json.obj []] })
    0 [bad_item, Json.obj []] 1 rfl (by decide) (by decide)

lemma build_search_query_search (c : Config) (s : String) (skip : Nat)
    (hs : c.start_date = some s) (hne : s ≠ "") :
    (build_search_query c skip).search =
      match c.endpoint with
      | .drug_adverse_events | .device_adverse_events =>
          some ("receivedate:[" ++ replace_dashes s ++ " TO 99991231]")
      | .food_recalls | .drug_recalls =>
          some ("report_date:[" ++ replace_dashes s ++ " TO 99991231]")
      | .drug_labels => Option.none := by
  have hb : (s == "") = false := by
    simp [hne]
  have h1 : strContains "food_recalls" "recalls" = true := by decide
  have h2 : strContains "drug_recalls" "recalls" = true := by decide
  have h3 : strContains "drug_labels" "recalls" = false := by decide
  have h4 : strContains "drug_labels" "enforcement" = false := by decide
  unfold build_search_query
  rw [hs]
  cases he : c.endpoint <;>
    simp [hb, he, endpoint_key, h1, h2, h3, h4]

/-- C5 fails on the code as stated: for the `drug_labels` endpoint a
set start date produces a request without any search filter (neither
membership test of `_build_search_query` matches that endpoint). -/
theorem claim_C5_counterexample :
    (build_search_query
      { api_key := Option.none, endpoint := Endpoint.drug_labels,
        start_date := some "2020-01-01", limit_per_request := 100 } 0).search
      = Option.none := by decide

/-- C5 (amended): every built request carries the configured limit and
the current offset.  When start_date is unset (or empty, which the
source's truthiness test treats as unset) no filter is included; when
it is set, the adverse-event endpoints filter on receivedate and the
two recall endpoints on report_date, each over the range
[start_date with dashes dropped, 99991231]; the drug_labels endpoint
never receives a filter, even with start_date set. -/
theorem claim_C5_amended (c : Config) (skip : Nat) :
    ((c.start_date = Option.none ∨ c.start_date = some "") →
       (build_search_query c skip).search = Option.none) ∧
    (∀ s, c.start_date = some s → s ≠ "" →
       ((c.endpoint = Endpoint.drug_adverse_events ∨
           c.endpoint = Endpoint.device_adverse_events) →
          (build_search_query c skip).search
            = some ("receivedate:[" ++ replace_dashes s ++ " TO 99991231]")) ∧
       ((c.endpoint = Endpoint.food_recalls ∨ c.endpoint = Endpoint.drug_recalls) →
          (build_search_query c skip).search
            = some ("report_date:[" ++ replace_dashes s ++ " TO 99991231]")) ∧
       (c.endpoint = Endpoint.drug_labels →
          (build_search_query c skip).search = Option.none)) ∧
    (build_search_query c skip).limit = c.limit_per_request ∧
    (build_search_query c skip).skip = skip := by
  refine ⟨?_, ?_, build_search_query_limit c skip, build_search_query_skip c skip⟩
  · rintro (h | h) <;> simp [build_search_query, h]
  · intro s hs hne
    have hsearch := build_search_query_search c s skip hs hne
    refine ⟨?_, ?_, ?_⟩
    · rintro (he | he) <;> rw [hsearch, he]
    · rintro (he | he) <;> rw [hsearch, he]
    · intro he
      rw [hsearch, he]

theorem claim_C5_witness :
    (build_search_query
      { api_key := Option.none, endpoint := Endpoint.drug_adverse_events,
        start_date := some "2020-01-01", limit_per_request := 100 } 7).search
      = some ("receivedate:[" ++ replace_dashes "2020-01-01" ++ " TO 99991231]") :=
  ((claim_C5_amended
      { api_key := Option.none, endpoint := Endpoint.drug_adverse_events,
        start_date := some "2020-01-01", limit_per_request := 100 } 7).2.1
    "2020-01-01" rfl (by decide)).1 (Or.inl rfl)

/-- C6 fails on the code as stated: a `drug_recalls` record carries the
key distribution_pattern, which the `drug_recalls` schema does not
declare. -/
theorem claim_C6_counterexample :
    (extract_record_data Endpoint.drug_recalls "t" (Json.obj [])).map recordKeys
      ≠ some (schemaColumnKeys Endpoint.drug_recalls) := by decide

/-- C6 (amended): every successfully normalized record is a flat
mapping whose key list equals the endpoint's declared schema columns,
except for `drug_recalls`, whose records additionally carry the
distribution_pattern key (so their key set is the declared column set
plus that one key). -/
theorem claim_C6_amended (e : Endpoint) (t : String) (raw : Json) (rec : Record)
    (h : extract_record_data e t raw = some rec) :
    (e ≠ Endpoint.drug_recalls → recordKeys rec = schemaColumnKeys e) ∧
    (e = Endpoint.drug_recalls →
       ∀ k, k ∈ recordKeys rec ↔ (k ∈ schemaColumnKeys e ∨ k = "distribution_pattern")) := by
  cases e <;> simp only [extract_record_data] at h
  case drug_adverse_events =>
    refine ⟨fun _ => ?_, fun he => absurd he (by decide)⟩
    rw [recordKeys, extract_drug_adverse_events_keys t raw rec h]
    rfl
  case drug_labels =>
    refine ⟨fun _ => ?_, fun he => absurd he (by decide)⟩
    rw [recordKeys, extract_drug_labels_keys t raw rec h]
    rfl
  case device_adverse_events =>
    refine ⟨fun _ => ?_, fun he => absurd he (by decide)⟩
    rw [recordKeys, extract_device_adverse_events_keys t raw rec h]
    rfl
  case food_recalls =>
    refine ⟨fun _ => ?_, fun he => absurd he (by decide)⟩
    rw [recordKeys, extract_recalls_keys Endpoint.food_recalls t raw rec h]
    rfl
  case drug_recalls =>
    refine ⟨fun hne => absurd rfl hne, fun _ k => ?_⟩
    rw [recordKeys, extract_recalls_keys Endpoint.drug_recalls t raw rec h]
    simp only [schemaColumnKeys, schema, List.map_cons, List.map_nil, List.mem_cons,
      List.not_mem_nil, or_false]
    tauto

theorem claim_C6_witness :
    (Endpoint.food_recalls ≠ Endpoint.drug_recalls →
       recordKeys ((extract_record_data Endpoint.food_recalls "t" (Json.obj [])).getD [])
         = schemaColumnKeys Endpoint.food_recalls) ∧
    (Endpoint.food_recalls = Endpoint.drug_recalls →
       ∀ k, k ∈ recordKeys ((extract_record_data Endpoint.food_recalls "t" (Json.obj [])).getD [])
         ↔ (k ∈ schemaColumnKeys Endpoint.food_recalls ∨ k = "distribution_pattern")) :=
  claim_C6_amended Endpoint.food_recalls "t" (Json.obj [])
    ((extract_record_data Endpoint.food_recalls "t" (Json.obj [])).getD []) rfl

/-- C8 fails on the code as stated: a configured limit_per_request of 0
passes through unchanged, so the stored page size is not a positive
integer. -/
theorem claim_C8_counterexample :
    init_limit_per_request (some 0) = 0 ∧ ¬ 0 < init_limit_per_request (some 0) := by
  decide

/-- C8 (amended): the stored page size defaults to 100 when the option
is absent and never exceeds 1000 for any configured value; it is
positive whenever the configured value is positive, but a non-positive
configured value is not rejected. -/
theorem claim_C8_amended :
    init_limit_per_request Option.none = 100 ∧
    (∀ v : Int, init_limit_per_request (some v) ≤ 1000) ∧
    (∀ v : Int, 0 < v → 0 < init_limit_per_request (some v)) := by
  refine ⟨rfl, ?_, ?_⟩
  · intro v
    simp only [init_limit_per_request, Option.getD_some]
    omega
  · intro v hv
    simp only [init_limit_per_request, Option.getD_some]
    omega

theorem claim_C8_witness :
    0 < init_limit_per_request (some 5) :=
  claim_C8_amended.2.2 5 (by decide)

/-- C9: if one request is answered 429 and its retry succeeds with body
b, the whole update run produces exactly the same requests and events
as if b had been returned on the first attempt, and the only difference
observed at that request is the single 60-second retry sleep. -/
theorem claim_C9 (c : Config) (t : String) (H : Params → List HttpResponse)
    (p0 : Params) (b : Body) (fuel : Nat) (st : Option Nat)
    (hH : H p0 = [HttpResponse.rateLimited, HttpResponse.success b]) :
    update c t (fetch_of H) fuel st
      = update c t
          (fetch_of (fun p => if p = p0 then [HttpResponse.success b] else H p)) fuel st
    ∧ (make_request (H p0)).2
        = 60 :: (make_request [HttpResponse.success b]).2 := by
  constructor
  · have hfe : fetch_of H
        = fetch_of (fun p => if p = p0 then [HttpResponse.success b] else H p) := by
      funext p
      by_cases hp : p = p0
      · subst hp
        show (make_request (H p)).1 = (make_request (if p = p then _ else H p)).1
        rw [hH, if_pos rfl]
        rfl
      · show (make_request (H p)).1 = (make_request (if p = p0 then _ else H p)).1
        rw [if_neg hp]
    rw [hfe]
  · rw [hH]
    rfl

theorem claim_C9_witness :
    update (sample_config Endpoint.food_recalls 100) "t"
        (fetch_of (fun _ => [HttpResponse.rateLimited,
          HttpResponse.success { results := some [] }])) 1 (some 0)
      = update (sample_config Endpoint.food_recalls 100) "t"
          (fetch_of (fun p =>
            if p = build_search_query (sample_config Endpoint.food_recalls 100) 0 then
              [HttpResponse.success { results := some [] }]
            else [HttpResponse.rateLimited,
              HttpResponse.success { results := some [] }])) 1 (some 0)
    ∧ (make_request ((fun _ => [HttpResponse.rateLimited,
          HttpResponse.success { results := some ([] : List Json) }])
            (build_search_query (sample_config Endpoint.food_recalls 100) 0))).2
        = 60 :: (make_request [HttpResponse.success
            { results := some ([] : List Json) }]).2 :=
  claim_C9 (sample_config Endpoint.food_recalls 100) "t"
    (fun _ => [HttpResponse.rateLimited, HttpResponse.success { results := some [] }])
    (build_search_query (sample_config Endpoint.food_recalls 100) 0)
    { results := some [] } 1 (some 0) rfl
